import Mathlib

/-!
Verification development for the lookify image pipeline
(src/fitting/services/image_utils.py and src/fitting/utils/image_processing.py).

Images are modelled by the data the pipeline inspects: pixel dimensions,
PIL colour mode, the presence of a transparency entry in the image info
dictionary, and the EXIF orientation tag.  Machine arithmetic on sizes is
plain natural-number arithmetic; the Python float ratio `T / max(w, h)`
followed by `int(x * ratio)` is modelled by the exact rational floor
`x * T / max(w, h)`.
-/

namespace Lookify

/-- An in-memory image, abstracted to the data the pipeline inspects:
width, height, PIL mode string, whether the info dict has a
transparency entry, and the EXIF orientation tag (1 = upright). -/
structure Img where
  w : Nat
  h : Nat
  mode : String := "RGB"
  hasTransparencyInfo : Bool := false
  orientation : Nat := 1
deriving DecidableEq

/-- Downscale step shared by _downscale_image (image_utils.py lines 79-84)
and the resize in normalize_to_webp (image_processing.py lines 196-202):
when the long edge exceeds the threshold, both dimensions are multiplied by
ratio = threshold / long_edge and truncated to integers (the Python float
ratio is modelled by exact rational arithmetic, so int(x * ratio) becomes
x * threshold / long_edge in floor division). Sizes within the threshold
are returned unchanged. -/
def downscaleSize (maxDimension : Nat) (size : Nat × Nat) : Nat × Nat :=
  if maxDimension < max size.1 size.2 then
    (size.1 * maxDimension / max size.1 size.2,
     size.2 * maxDimension / max size.1 size.2)
  else size

/-- ImageOps.exif_transpose as it acts on the modelled data: orientation
tags 5-8 transpose the pixel grid (width and height swap), tags 1-4 keep
the dimensions; the orientation tag is removed in either case. -/
def exifTranspose (img : Img) : Img :=
  if img.orientation = 5 ∨ img.orientation = 6 ∨ img.orientation = 7 ∨ img.orientation = 8 then
    { img with w := img.h, h := img.w, orientation := 1 }
  else
    { img with orientation := 1 }

/-- _downscale_image lifted to the image model. -/
def downscaleImg (maxDimension : Nat) (img : Img) : Img :=
  { img with
    w := (downscaleSize maxDimension (img.w, img.h)).1,
    h := (downscaleSize maxDimension (img.w, img.h)).2 }

/-- Per-item processing in combine_item_images (image_utils.py lines
106-108): EXIF orientation correction followed by an 800px long-edge
downscale. -/
def procItem (img : Img) : Img := downscaleImg 800 (exifTranspose img)

/-- C3: if the long edge is within the threshold T the resize step returns
the size unchanged; otherwise the new long edge equals T and each dimension
is the floor of the exact uniform scaling by T / max(w, h), i.e. within 1px
of the real-valued scaling, preserving the aspect ratio. -/
theorem downscale_resize_contract (w h T : Nat) :
    (max w h ≤ T → downscaleSize T (w, h) = (w, h)) ∧
    (T < max w h →
      max (downscaleSize T (w, h)).1 (downscaleSize T (w, h)).2 = T ∧
      (downscaleSize T (w, h)).1 * max w h ≤ w * T ∧
      w * T < ((downscaleSize T (w, h)).1 + 1) * max w h ∧
      (downscaleSize T (w, h)).2 * max w h ≤ h * T ∧
      h * T < ((downscaleSize T (w, h)).2 + 1) * max w h) := by
  constructor
  · intro hle
    simp only [downscaleSize]
    rw [if_neg (Nat.not_lt.2 hle)]
  · intro hlt
    have hm : 0 < max w h := Nat.lt_of_le_of_lt (Nat.zero_le T) hlt
    simp only [downscaleSize, if_pos hlt]
    refine ⟨?_, ?_, ?_, ?_, ?_⟩
    · rcases Nat.le_total w h with hwh | hwh
      · have hmax : max w h = h := Nat.max_eq_right hwh
        have hh : 0 < h := hmax ▸ hm
        have hhT : h * T / max w h = T := by
          rw [hmax, Nat.mul_comm, Nat.mul_div_cancel T hh]
        have hle2 : w * T / max w h ≤ T := by
          calc w * T / max w h ≤ h * T / max w h :=
                Nat.div_le_div_right (Nat.mul_le_mul_right T hwh)
            _ = T := hhT
        rw [hhT, Nat.max_eq_right hle2]
      · have hmax : max w h = w := Nat.max_eq_left hwh
        have hw : 0 < w := hmax ▸ hm
        have hwT : w * T / max w h = T := by
          rw [hmax, Nat.mul_comm, Nat.mul_div_cancel T hw]
        have hle2 : h * T / max w h ≤ T := by
          calc h * T / max w h ≤ w * T / max w h :=
                Nat.div_le_div_right (Nat.mul_le_mul_right T hwh)
            _ = T := hwT
        rw [hwT, Nat.max_eq_left hle2]
    · exact Nat.div_mul_le_self (w * T) (max w h)
    · exact (Nat.div_lt_iff_lt_mul hm).1 (Nat.lt_succ_self _)
    · exact Nat.div_mul_le_self (h * T) (max w h)
    · exact (Nat.div_lt_iff_lt_mul hm).1 (Nat.lt_succ_self _)

/-- Witness for C3 at the concrete size 1600 x 1200 with threshold 800:
the hypotheses are discharged and the scaled size is 800 x 600. -/
theorem downscale_resize_contract_witness :
    max (downscaleSize 800 (1600, 1200)).1 (downscaleSize 800 (1600, 1200)).2 = 800 ∧
    downscaleSize 640 (320, 640) = (320, 640) :=
  ⟨((downscale_resize_contract 1600 1200 800).2 (by decide)).1,
   (downscale_resize_contract 320 640 640).1 (by decide)⟩

/-- A placed image inside a collage canvas: the processed image together
with the pixel offset of its top-left corner. -/
structure Placement where
  img : Img
  x : Nat
  y : Nat
deriving DecidableEq

/-- Result of combine_item_images: either the single processed image is
returned as-is (no canvas drawn), or a fresh RGB canvas of the given size
and background colour with the processed images pasted at their offsets. -/
inductive CollageResult where
  | passthrough (img : Img)
  | canvas (width height : Nat) (bg : Nat × Nat × Nat) (placements : List Placement)
deriving DecidableEq

/-- Per-item loading loop of combine_item_images (image_utils.py lines
97-109), abstracted over file IO: each decoded item is rejected when its
original size is (0, 0), otherwise orientation-corrected and downscaled to
an 800px long edge. The first failing item aborts the whole loop. -/
def loadItems : List Img → Except String (List Img)
  | [] => .ok []
  | i :: rest =>
    if i.w == 0 && i.h == 0 then
      .error "Item image has zero dimensions."
    else
      match loadItems rest with
      | .error e => .error e
      | .ok rest2 => .ok (procItem i :: rest2)

/-- Grid shape chosen by combine_item_images (image_utils.py lines
112-125): 2 images give 2 columns x 1 row, otherwise 2 columns and
(n + 1) / 2 rows. -/
def gridDims (n : Nat) : Nat × Nat :=
  if n = 2 then (2, 1) else (2, (n + 1) / 2)

/-- Cell size (image_utils.py lines 127-131): the maximum width and the
maximum height over all processed item images. -/
def cellSize (imgs : List Img) : Nat × Nat :=
  ((imgs.map Img.w).foldl max 0, (imgs.map Img.h).foldl max 0)

/-- Placement of the i-th image (image_utils.py lines 138-148): cell
coordinates row = i / cols, col = i % cols; cell origin offset by 20px
spacing per preceding cell; the image centred in its cell by floor
division. -/
def placeAt (cols cw ch : Nat) (i : Nat) (img : Img) : Placement :=
  { img := img,
    x := (i % cols) * (cw + 20) + (cw - img.w) / 2,
    y := (i / cols) * (ch + 20) + (ch - img.h) / 2 }

/-- Layout stage of combine_item_images (image_utils.py lines 111-148) on
the already-loaded images: one image passes through with no canvas; two or
more are placed on a white RGB canvas of size
cols * cellW + (cols - 1) * 20 by rows * cellH + (rows - 1) * 20. -/
def combineLoaded (imgs : List Img) : Except String CollageResult :=
  match imgs with
  | [] => .error "No item images provided"
  | [img] => .ok (.passthrough img)
  | _ =>
    let n := imgs.length
    let cols := (gridDims n).1
    let rows := (gridDims n).2
    let cw := (cellSize imgs).1
    let ch := (cellSize imgs).2
    .ok (.canvas (cols * cw + (cols - 1) * 20) (rows * ch + (rows - 1) * 20)
      (255, 255, 255)
      (imgs.enum.map fun p => placeAt cols cw ch p.1 p.2))

/-- combine_item_images (image_utils.py lines 86-166) on decoded item
images: the empty list is rejected, each item is loaded and processed, and
the processed images are laid out. Path resolution and the traversal guard
that precede each load are modelled separately by resolvedPath and
traversalCheckPasses. -/
def combineItemImages (items : List Img) : Except String CollageResult :=
  if items.isEmpty then .error "No item images provided"
  else
    match loadItems items with
    | .error e => .error e
    | .ok imgs => combineLoaded imgs

/-- The zero-size rejection test of the loading loop is false for an image
that is not 0 x 0. -/
theorem zero_check_false {img : Img} (h : ¬(img.w = 0 ∧ img.h = 0)) :
    (img.w == 0 && img.h == 0) = false := by
  cases hw : img.w == 0 <;> cases hh : img.h == 0 <;> simp_all

/-- C1: the collage geometry for two and for three accepted item images.
Two images produce a 2 x 1 grid: canvas 2 * cw + 20 wide and ch high, image
0 at ((cw - w0) / 2, (ch - h0) / 2) and image 1 one cell plus 20px spacing
to the right. Three images produce a 2 x 2 grid: canvas 2 * cw + 20 by
2 * ch + 20 with exactly three placements, the fourth cell left as
background; cw and ch are the maxima of the processed (orientation-corrected,
800px-downscaled) widths and heights, the canvas is opaque white. -/
theorem combine_collage_geometry (a b c : Img)
    (ha : ¬(a.w = 0 ∧ a.h = 0)) (hb : ¬(b.w = 0 ∧ b.h = 0))
    (hc : ¬(c.w = 0 ∧ c.h = 0)) :
    (combineItemImages [a, b] = .ok (.canvas
      (2 * max (procItem a).w (procItem b).w + 20)
      (max (procItem a).h (procItem b).h)
      (255, 255, 255)
      [⟨procItem a, (max (procItem a).w (procItem b).w - (procItem a).w) / 2,
          (max (procItem a).h (procItem b).h - (procItem a).h) / 2⟩,
       ⟨procItem b, (max (procItem a).w (procItem b).w + 20) +
          (max (procItem a).w (procItem b).w - (procItem b).w) / 2,
          (max (procItem a).h (procItem b).h - (procItem b).h) / 2⟩])) ∧
    (combineItemImages [a, b, c] = .ok (.canvas
      (2 * max (procItem a).w (max (procItem b).w (procItem c).w) + 20)
      (2 * max (procItem a).h (max (procItem b).h (procItem c).h) + 20)
      (255, 255, 255)
      [⟨procItem a,
          (max (procItem a).w (max (procItem b).w (procItem c).w) - (procItem a).w) / 2,
          (max (procItem a).h (max (procItem b).h (procItem c).h) - (procItem a).h) / 2⟩,
       ⟨procItem b,
          (max (procItem a).w (max (procItem b).w (procItem c).w) + 20) +
            (max (procItem a).w (max (procItem b).w (procItem c).w) - (procItem b).w) / 2,
          (max (procItem a).h (max (procItem b).h (procItem c).h) - (procItem b).h) / 2⟩,
       ⟨procItem c,
          (max (procItem a).w (max (procItem b).w (procItem c).w) - (procItem c).w) / 2,
          (max (procItem a).h (max (procItem b).h (procItem c).h) + 20) +
            (max (procItem a).h (max (procItem b).h (procItem c).h) - (procItem c).h) / 2⟩])) := by
  constructor
  · simp only [combineItemImages, loadItems, zero_check_false ha, zero_check_false hb,
      combineLoaded, gridDims, cellSize, placeAt, List.enum, List.isEmpty,
      Bool.false_eq_true, if_false, List.map, List.enumFrom, List.foldl]
    simp
    try omega
  · simp only [combineItemImages, loadItems, zero_check_false ha, zero_check_false hb,
      zero_check_false hc, combineLoaded, gridDims, cellSize, placeAt, List.enum,
      List.isEmpty, Bool.false_eq_true, if_false, List.map, List.enumFrom, List.foldl]
    simp
    try omega

/-- C9: a single accepted item image is passed through: the result is the
input image itself, orientation-corrected and downscaled to an 800px long
edge, with no canvas, spacing, background or cell placement. -/
theorem combine_single_passthrough (img : Img) (h : ¬(img.w = 0 ∧ img.h = 0)) :
    combineItemImages [img] = .ok (.passthrough (downscaleImg 800 (exifTranspose img))) := by
  simp [combineItemImages, loadItems, zero_check_false h, combineLoaded, procItem]

/-- Witness for C1 at two concrete 100x50 and 80x120 images (both within
the 800px bound): the canvas is 220 x 120 with the stated centred offsets. -/
theorem combine_collage_geometry_witness :
    combineItemImages [⟨100, 50, "RGB", false, 1⟩, ⟨80, 120, "RGB", false, 1⟩] =
      .ok (.canvas 220 120 (255, 255, 255)
        [⟨⟨100, 50, "RGB", false, 1⟩, 0, 35⟩,
         ⟨⟨80, 120, "RGB", false, 1⟩, 130, 0⟩]) :=
  (combine_collage_geometry ⟨100, 50, "RGB", false, 1⟩ ⟨80, 120, "RGB", false, 1⟩
    ⟨60, 60, "RGB", false, 1⟩ (by decide) (by decide) (by decide)).1

/-- Witness for C9 at a concrete 1600x1200 image with EXIF orientation 6:
the output is the transposed, 800px-downscaled image itself. -/
theorem combine_single_passthrough_witness :
    combineItemImages [⟨1600, 1200, "RGB", false, 6⟩] =
      .ok (.passthrough ⟨600, 800, "RGB", false, 1⟩) :=
  combine_single_passthrough ⟨1600, 1200, "RGB", false, 6⟩ (by decide)

/-- Python str.startswith(prefix) on the modelled strings. -/
def strStartsWith (p s : String) : Bool := p.data.isPrefixOf s.data

/-- Split a character list on the path separator. -/
def splitSlashAux : List Char → List Char → List (List Char)
  | [], cur => [cur.reverse]
  | c :: cs, cur =>
    if c = '/' then cur.reverse :: splitSlashAux cs []
    else splitSlashAux cs (c :: cur)

/-- Split a path string into its separator-delimited components. -/
def splitOnSlash (s : String) : List String :=
  (splitSlashAux s.data []).map String.mk

/-- Interleave the path separator between component character lists. -/
def joinSlashChars : List (List Char) → List Char
  | [] => []
  | [p] => p
  | p :: rest => p ++ '/' :: joinSlashChars rest

/-- POSIX path normalisation of an absolute path: empty and "." components
are dropped, ".." pops the previous component (or vanishes at the root). -/
def normParts (parts : List String) : List String :=
  parts.foldl (fun acc c =>
    if c = "" || c = "." then acc
    else if c = ".." then acc.dropLast
    else acc ++ [c]) []

/-- os.path.abspath on an absolute path string. -/
def abspathOf (s : String) : String :=
  String.mk ('/' :: joinSlashChars ((normParts (splitOnSlash s)).map String.data))

/-- os.path.join(root, p): an absolute second argument replaces the first,
otherwise the parts are joined with a separator. -/
def osPathJoin (root p : String) : String :=
  if strStartsWith "/" p then p else String.mk (root.data ++ '/' :: p.data)

/-- The resolved path os.path.abspath(os.path.join(MEDIA_ROOT, p)) computed
by build_preview_placeholder (image_utils.py line 23) and
combine_item_images (line 98). -/
def resolvedPath (root p : String) : String := abspathOf (osPathJoin root p)

/-- The guard full_path.startswith(os.path.abspath(MEDIA_ROOT)) of
image_utils.py lines 24 and 99: a path is accepted (no error raised, the
file is then opened) exactly when this is true. -/
def traversalCheckPasses (root p : String) : Bool :=
  strStartsWith (abspathOf root) (resolvedPath root p)

/-- A resolved path lies within the storage root when it equals the root
or the root followed by a separator is a prefix of it. -/
def withinRoot (root resolved : String) : Bool :=
  resolved.data == (abspathOf root).data ||
    strStartsWith (String.mk ((abspathOf root).data ++ ['/'])) resolved

/-- C2: the traversal guard is a raw string-prefix test, so the concrete
relative path "../mediaX/secret.png" under the root "/app/media" resolves
to "/app/mediaX/secret.png" — outside the storage root — yet passes the
guard and is subsequently opened. -/
theorem traversal_guard_bypassed :
    resolvedPath "/app/media" "../mediaX/secret.png" = "/app/mediaX/secret.png" ∧
    withinRoot "/app/media" (resolvedPath "/app/media" "../mediaX/secret.png") = false ∧
    traversalCheckPasses "/app/media" "../mediaX/secret.png" = true := by
  refine ⟨by decide, by decide, by decide⟩

/-- Python str.endswith(suffix) on the modelled strings. -/
def strEndsWith (suf s : String) : Bool := suf.data.isSuffixOf s.data

/-- Contiguous sublist test on character lists. -/
def hasSubList (needle : List Char) : List Char → Bool
  | [] => needle.isEmpty
  | c :: rest => needle.isPrefixOf (c :: rest) || hasSubList needle rest

/-- Python substring membership: needle in hay. -/
def strContains (hay needle : String) : Bool := hasSubList needle.data hay.data

/-- A list is a prefix of itself under the executable test. -/
theorem isPrefixOf_self (l : List Char) : l.isPrefixOf l = true := by
  induction l with
  | nil => rfl
  | cons c cs ih => simp [List.isPrefixOf, ih]

/-- Any suffix of a character list is found by the sublist test. -/
theorem hasSubList_append_self (n : List Char) :
    ∀ p : List Char, hasSubList n (p ++ n) = true := by
  intro p
  induction p with
  | nil =>
    cases n with
    | nil => rfl
    | cons c cs => simp [hasSubList, isPrefixOf_self]
  | cons c cs ih => simp [hasSubList, ih]

/-- PIL band count of a mode: RGBA has 4 bands, RGB 3, LA 2, and the
single-band modes (L, P, 1, I, F, ...) have 1. -/
def numBands (mode : String) : Nat :=
  if mode = "RGBA" then 4
  else if mode = "RGB" then 3
  else if mode = "LA" then 2
  else 1

/-- Mode of image.split()[-1]: a single-band image splits into a copy of
itself, a multi-band image splits into L bands. -/
def splitLastBandMode (mode : String) : String :=
  if numBands mode = 1 then mode else "L"

/-- Mask modes accepted by PIL Image.paste (paste.c): 1, L, LA, RGBa and
RGBA; any other mode raises ValueError "bad transparency mask". -/
def validMaskMode (mode : String) : Bool :=
  mode == "1" || mode == "L" || mode == "LA" || mode == "RGBa" || mode == "RGBA"

/-- _has_alpha (image_processing.py lines 93-94): RGBA or LA mode, or
palette mode with a transparency entry in the info dict. -/
def hasAlphaImg (img : Img) : Bool :=
  img.mode == "RGBA" || img.mode == "LA" ||
    (img.mode == "P" && img.hasTransparencyInfo)

/-- Flattening step of normalize_to_webp (image_processing.py lines
186-194): an image with alpha is pasted onto a white RGB background using
image.split()[-1] as the mask — which PIL rejects when that band is not a
valid mask mode; a non-RGB image without alpha is converted to RGB; an RGB
image passes through. -/
def flattenToRGB (img : Img) : Except String Img :=
  if hasAlphaImg img then
    if validMaskMode (splitLastBandMode img.mode) then
      .ok { img with mode := "RGB", hasTransparencyInfo := false }
    else
      .error "bad transparency mask"
  else if img.mode ≠ "RGB" then
    .ok { img with mode := "RGB", hasTransparencyInfo := false }
  else
    .ok img

/-- C4: RGBA and LA inputs are flattened to RGB over the white background
and any other non-RGB mode converts to RGB, but a palette image carrying a
transparency entry is not composited: split()[-1] of a P image is the
P-mode image itself, paste rejects it as a mask, and the flattening step
fails with "bad transparency mask". -/
theorem flatten_palette_transparency_error :
    flattenToRGB { w := 10, h := 10, mode := "P", hasTransparencyInfo := true, orientation := 1 } =
      .error "bad transparency mask" ∧
    flattenToRGB { w := 10, h := 10, mode := "RGBA", hasTransparencyInfo := false, orientation := 1 } =
      .ok { w := 10, h := 10, mode := "RGB", hasTransparencyInfo := false, orientation := 1 } ∧
    flattenToRGB { w := 10, h := 10, mode := "LA", hasTransparencyInfo := false, orientation := 1 } =
      .ok { w := 10, h := 10, mode := "RGB", hasTransparencyInfo := false, orientation := 1 } ∧
    flattenToRGB { w := 10, h := 10, mode := "L", hasTransparencyInfo := false, orientation := 1 } =
      .ok { w := 10, h := 10, mode := "RGB", hasTransparencyInfo := false, orientation := 1 } := by
  refine ⟨rfl, rfl, rfl, rfl⟩

/-- Environment of one normalize_to_webp decode attempt: which rungs of
the fallback chain would succeed on these bytes, whether the optional
pyheif library is installed, the MIME type sniffed by python-magic (none
when unavailable or failed), and the lower-cased upload filename. -/
structure DecodeEnv where
  pilOk : Bool
  openHeifOk : Bool
  readHeifOk : Bool
  pyheifAvailable : Bool
  pyheifOk : Bool
  externalOk : Bool
  detectedMime : Option String
  filenameLower : String

/-- Python (detected_mime and key in detected_mime). -/
def mimeHas (mime : Option String) (key : String) : Bool :=
  match mime with
  | none => false
  | some m => strContains m key

/-- Gate of the pyheif rung (image_processing.py line 146): pyheif present
and the sniffed MIME or the filename indicates HEIC/HEIF. -/
def pyheifGate (e : DecodeEnv) : Bool :=
  e.pyheifAvailable &&
    (mimeHas e.detectedMime "heic" || mimeHas e.detectedMime "heif" ||
     strEndsWith ".heic" e.filenameLower || strEndsWith ".heif" e.filenameLower)

/-- Gate of the direct external-converter branch (image_processing.py line
169): the sniffed MIME or the filename indicates HEIC/HEIF/AVIF. -/
def heifAvifGate (e : DecodeEnv) : Bool :=
  (mimeHas e.detectedMime "heic" || mimeHas e.detectedMime "heif" ||
     mimeHas e.detectedMime "avif") ||
  strEndsWith ".heic" e.filenameLower || strEndsWith ".heif" e.filenameLower ||
  strEndsWith ".avif" e.filenameLower

/-- Which rung of the decode chain produced the image. -/
inductive DecodeRung where
  | pil | openHeif | readHeif | pyheifRung | externalConv
deriving DecidableEq

/-- Decode chain of normalize_to_webp (image_processing.py lines 122-179):
PIL, then pillow_heif.open_heif, then pillow_heif.read_heif, then — only
behind pyheifGate — pyheif with the external converter as its fallback,
then — only behind heifAvifGate — the external converter directly; any
other input fails terminally. The second component records whether
_convert_heif_like_external was invoked. -/
def decodeChain (e : DecodeEnv) : Except String DecodeRung × Bool :=
  if e.pilOk then (.ok .pil, false)
  else if e.openHeifOk then (.ok .openHeif, false)
  else if e.readHeifOk then (.ok .readHeif, false)
  else if pyheifGate e then
    if e.pyheifOk then (.ok .pyheifRung, false)
    else if e.externalOk then (.ok .externalConv, true)
    else (.error "external converter failed", true)
  else if heifAvifGate e then
    if e.externalOk then (.ok .externalConv, true)
    else (.error "external converter failed", true)
  else (.error "cannot identify image file", false)

/-- The pyheif gate only opens on inputs the HEIC/HEIF/AVIF gate accepts. -/
theorem pyheifGate_le_heifAvifGate (e : DecodeEnv) (h : pyheifGate e = true) :
    heifAvifGate e = true := by
  simp only [pyheifGate, Bool.and_eq_true, Bool.or_eq_true] at h
  simp only [heifAvifGate, Bool.or_eq_true]
  tauto

/-- C5: the external converter is invoked only when the sniffed MIME type
or the filename extension indicates HEIC/HEIF/AVIF; for any other input,
once PIL and both embedded HEIF decoders have failed, the chain returns a
terminal decode error without invoking the external converter. -/
theorem external_converter_gated (e : DecodeEnv) :
    ((decodeChain e).2 = true → heifAvifGate e = true) ∧
    (heifAvifGate e = false → e.pilOk = false → e.openHeifOk = false →
      e.readHeifOk = false →
      decodeChain e = (.error "cannot identify image file", false)) := by
  constructor
  · intro hsp
    by_cases h1 : e.pilOk = true
    · simp [decodeChain, h1] at hsp
    · by_cases h2 : e.openHeifOk = true
      · simp [decodeChain, h1, h2] at hsp
      · by_cases h3 : e.readHeifOk = true
        · simp [decodeChain, h1, h2, h3] at hsp
        · by_cases h4 : pyheifGate e = true
          · exact pyheifGate_le_heifAvifGate e h4
          · by_cases h5 : heifAvifGate e = true
            · exact h5
            · simp [decodeChain, h1, h2, h3, h4, h5] at hsp
  · intro hg h1 h2 h3
    have h4 : pyheifGate e = false := by
      cases h5 : pyheifGate e
      · rfl
      · rw [pyheifGate_le_heifAvifGate e h5] at hg
        exact absurd hg (by simp)
    simp [decodeChain, h1, h2, h3, h4, hg]

/-- A concrete non-HEIF decode environment: a PNG-sniffed, .png-named
upload on which every decoder fails. -/
def pngDecodeEnv : DecodeEnv :=
  { pilOk := false, openHeifOk := false, readHeifOk := false,
    pyheifAvailable := true, pyheifOk := false, externalOk := true,
    detectedMime := some "image/png", filenameLower := "upload.png" }

/-- Witness for C5: on the concrete non-HEIF environment the chain returns
the terminal error and the external converter is never invoked. -/
theorem external_converter_gated_witness :
    decodeChain pngDecodeEnv = (.error "cannot identify image file", false) :=
  (external_converter_gated pngDecodeEnv).2 (by decide) rfl rfl rfl

/-- One subprocess.run invocation as the code issues it: the argument
vector, the captured streams, and the timeout parameter (none means the
Python default, an unbounded wait). -/
structure SubprocessRun where
  argv : List String
  stdoutPiped : Bool
  stderrPiped : Bool
  timeout : Option Nat
deriving DecidableEq

/-- The heif-convert invocation of _convert_heif_like_external
(image_processing.py lines 61-63): subprocess.run(cmd, stdout=PIPE,
stderr=PIPE) with no timeout argument. -/
def heifConvertRun (exe tmpIn tmpOutPng : String) : SubprocessRun :=
  { argv := [exe, tmpIn, tmpOutPng], stdoutPiped := true, stderrPiped := true,
    timeout := none }

/-- The ImageMagick invocation of _convert_heif_like_external
(image_processing.py lines 69-71): subprocess.run(cmd, stdout=PIPE,
stderr=PIPE) with no timeout argument. -/
def magickRun (exe tmpIn tmpOutPng : String) : SubprocessRun :=
  { argv := [exe, tmpIn, tmpOutPng], stdoutPiped := true, stderrPiped := true,
    timeout := none }

/-- C6: both external-converter invocations are issued without any timeout
bound — the timeout parameter of every subprocess.run call in the decode
chain is the unbounded default, so a hung converter blocks indefinitely. -/
theorem external_converter_unbounded :
    (heifConvertRun "heif-convert" "/tmp/heic_conv_a/input.heic"
        "/tmp/heic_conv_a/output.png").timeout = none ∧
    (magickRun "magick" "/tmp/heic_conv_a/input.heic"
        "/tmp/heic_conv_a/output.png").timeout = none :=
  ⟨rfl, rfl⟩

/-- Outcome environment of one _convert_heif_like_external run: whether
the temporary directory can be created, which converter binaries resolve,
whether the chosen converter exits with code zero and actually produces
the output file, and whether the produced PNG opens. -/
structure ConvEnv where
  mkdtempOk : Bool
  heifConvertFound : Bool
  magickFound : Bool
  convReturncodeZero : Bool
  outputProduced : Bool
  openOk : Bool

/-- The files created by one _convert_heif_like_external run: the
temporary directory, the input file and the output PNG inside it. -/
structure ConvFS where
  tmpDirExists : Bool
  tmpInExists : Bool
  tmpOutExists : Bool
deriving DecidableEq

/-- Body of _convert_heif_like_external (image_processing.py lines 46-80)
before the finally block: make the temporary directory, write the input
bytes, run heif-convert if found, else ImageMagick if found, else fail;
a non-zero exit code or a missing output file raises; on success the
output PNG is opened and copied. The ConvFS component is what exists on
disk when control leaves the body. -/
def convertBody (env : ConvEnv) : Except String Unit × ConvFS :=
  if env.mkdtempOk = false then
    (.error "mkdtemp failed", ⟨false, false, false⟩)
  else if env.heifConvertFound then
    let fs : ConvFS := ⟨true, true, env.outputProduced⟩
    if env.convReturncodeZero && env.outputProduced then
      if env.openOk then (.ok (), fs) else (.error "output unreadable", fs)
    else (.error "heif-convert failed", fs)
  else if env.magickFound then
    let fs : ConvFS := ⟨true, true, env.outputProduced⟩
    if env.convReturncodeZero && env.outputProduced then
      if env.openOk then (.ok (), fs) else (.error "output unreadable", fs)
    else (.error "ImageMagick failed", fs)
  else
    (.error "No external HEIC/AVIF converter found (need heif-convert or ImageMagick)",
     ⟨true, true, false⟩)

/-- The finally block of _convert_heif_like_external (image_processing.py
lines 81-90): remove the input file if present, then rmtree the whole
temporary directory (with errors ignored), deleting everything inside
it; it runs on every exit from the body, normal or exceptional. -/
def convFinally (r : Except String Unit × ConvFS) : Except String Unit × ConvFS :=
  match r with
  | (res, fs) =>
    if fs.tmpDirExists then (res, ⟨false, false, false⟩)
    else (res, { fs with tmpInExists := false })

/-- _convert_heif_like_external: the body wrapped in the finally block. -/
def convertHeifLikeExternal (env : ConvEnv) : Except String Unit × ConvFS :=
  convFinally (convertBody env)

/-- C7: on every exit path of the external converter — success, converter
failure, missing output, unreadable output, missing binary, or failed
directory creation — the temporary directory and the files inside it are
gone afterwards. -/
theorem external_converter_cleanup (env : ConvEnv) :
    (convertHeifLikeExternal env).2 = ⟨false, false, false⟩ := by
  obtain ⟨m, hf, mg, rc, op, ok⟩ := env
  cases m <;> cases hf <;> cases mg <;> cases rc <;> cases op <;> cases ok <;> rfl

/-- A Python exception as build_preview_placeholder distinguishes them:
the handler class together with the exception message str(e). -/
inductive PyExc where
  | fileNotFound (msg : String)
  | valueError (msg : String)
  | unidentifiedImage (msg : String)
  | osError (msg : String)
  | other (msg : String)
deriving DecidableEq

/-- The message str(e) carried by an exception. -/
def excMessage : PyExc → String
  | .fileNotFound m => m
  | .valueError m => m
  | .unidentifiedImage m => m
  | .osError m => m
  | .other m => m

/-- The except clauses of build_preview_placeholder (image_utils.py lines
66-77): FileNotFoundError and ValueError become ValueError("Placeholder
file error: " + str(e)), UnidentifiedImageError a fixed ValueError,
OSError ValueError("Placeholder file access error: " + str(e)), and any
other exception ValueError("Unknown error during placeholder creation: "
+ str(e)). -/
def placeholderWrapError : PyExc → PyExc
  | .fileNotFound m => .valueError ("Placeholder file error: " ++ m)
  | .valueError m => .valueError ("Placeholder file error: " ++ m)
  | .unidentifiedImage _ =>
      .valueError "Provided file is not a valid image or is corrupted for placeholder."
  | .osError m => .valueError ("Placeholder file access error: " ++ m)
  | .other m => .valueError ("Unknown error during placeholder creation: " ++ m)

/-- C8 counterexample: the wrapped error's message embeds the raw
underlying error text — a filesystem error whose message is
"secret deploy path detail" surfaces that text verbatim inside the
ValueError handed to the caller, and two failures differing only in the
underlying message produce different user-facing errors. -/
theorem placeholder_error_text_leaks :
    strContains (excMessage (placeholderWrapError (.osError "secret deploy path detail")))
      "secret deploy path detail" = true ∧
    placeholderWrapError (.osError "error A") =
      .valueError "Placeholder file access error: error A" ∧
    placeholderWrapError (.osError "error B") =
      .valueError "Placeholder file access error: error B" := by
  refine ⟨by decide, rfl, rfl⟩

/-- C8 amended: every failure inside placeholder generation is re-raised
as the single category ValueError, but for every underlying message the
file-not-found, value-error, filesystem and unknown-error handlers
interpolate str(e) into the surfaced message, so the raw underlying error
text reaches the caller (only the unidentified-image handler uses a fixed
message). -/
theorem placeholder_error_wrapping (e : PyExc) (s : String) :
    (∃ m, placeholderWrapError e = PyExc.valueError m) ∧
    strContains (excMessage (placeholderWrapError (PyExc.osError s))) s = true ∧
    strContains (excMessage (placeholderWrapError (PyExc.fileNotFound s))) s = true ∧
    strContains (excMessage (placeholderWrapError (PyExc.other s))) s = true := by
  refine ⟨?_, ?_, ?_, ?_⟩
  · cases e <;> exact ⟨_, rfl⟩
  · show strContains ("Placeholder file access error: " ++ s) s = true
    unfold strContains
    rw [String.data_append]
    exact hasSubList_append_self s.data _
  · show strContains ("Placeholder file error: " ++ s) s = true
    unfold strContains
    rw [String.data_append]
    exact hasSubList_append_self s.data _
  · show strContains ("Unknown error during placeholder creation: " ++ s) s = true
    unfold strContains
    rw [String.data_append]
    exact hasSubList_append_self s.data _

/-- The pixel-relevant content of the placeholder result: the processed
user image and the optional caption overlay (text, position, fill colour,
and whether the Arial truetype font was used or the PIL default). -/
structure RenderedPlaceholder where
  base : Img
  captionText : Option String
  captionPos : Nat × Nat
  captionColor : Nat × Nat × Nat
  arialFont : Bool
deriving DecidableEq

/-- build_preview_placeholder (image_utils.py lines 16-64), abstracted
over file IO: userImg is the decoded image at the validated user path
(path resolution and the traversal guard are modelled by resolvedPath and
traversalCheckPasses), uuidHex the random identifier drawn for the stored
filename, arialAvailable whether ImageFont.truetype("arial.ttf", 40)
succeeds. The item_img_path parameter is carried exactly as in the source
signature. The result is the rendered content together with the stored
file name. -/
def buildPreviewPlaceholder (userImg : Img) (itemImgPath : String)
    (additionalPrompt : String) (uuidHex : String) (arialAvailable : Bool) :
    Except String (RenderedPlaceholder × String) :=
  if userImg.w == 0 && userImg.h == 0 then
    .error "User image has zero dimensions."
  else
    let img := downscaleImg 3000 (exifTranspose userImg)
    let content : RenderedPlaceholder :=
      if additionalPrompt.data.isEmpty then
        { base := img, captionText := none, captionPos := (50, 50),
          captionColor := (255, 255, 255), arialFont := arialAvailable }
      else
        { base := img,
          captionText := some ("Your wishes: " ++ additionalPrompt),
          captionPos := (50, 50), captionColor := (255, 255, 255),
          arialFont := arialAvailable }
    .ok (content, "placeholder_" ++ uuidHex ++ ".jpeg")

/-- C10: the placeholder's rendered content is a function of the user
image, the caption prompt and the font environment alone — two calls
differing in item_img_path (and even in the random uuid) produce identical
content, and the stored filename differs only through the uuid: it does
not depend on item_img_path either. -/
theorem placeholder_ignores_item_path (u : Img) (p1 p2 prompt uuid1 uuid2 : String)
    (arial : Bool) :
    (buildPreviewPlaceholder u p1 prompt uuid1 arial).map Prod.fst =
      (buildPreviewPlaceholder u p2 prompt uuid2 arial).map Prod.fst ∧
    buildPreviewPlaceholder u p1 prompt uuid1 arial =
      buildPreviewPlaceholder u p2 prompt uuid1 arial := by
  cases h : (u.w == 0 && u.h == 0) <;>
    simp [buildPreviewPlaceholder, h, Except.map]

end Lookify
